import Mathlib

/-!
# Verification of the open-notebook content indexing and hybrid retrieval engine

This file is a shallow embedding, in Lean 4, of the chunking / embedding /
vector-search core of the open-notebook repository, together with theorems
settling the specification claims about it.

Embedding conventions:
* Python floats are modelled as exact rationals (`ℚ`).
* UUID identifiers are modelled as `Nat` (only equality of ids matters).
* The SQL session is modelled as an explicit `Database` record of table rows;
  committed mutations become functional updates of that record.
* Fallible Python code (raised exceptions) is modelled with `Except`.
* The pgvector `cosine_distance` operator and the embedding provider are
  external collaborators; they enter as explicit function parameters
  (`dist`, `Embedder`), so every theorem quantifies over their behaviour.
-/

namespace OpenNotebook

/-! ## Data model — `open_notebook/database/models.py`

Each structure transcribes one SQLModel table, keeping the column names of the
source.  Columns irrelevant to every claim (`notebook_id`, `type`, `url`,
`file_path`, `topics`, `asset`, timestamps) are omitted from the records but
kept in the column-name lists below, which transcribe the full column sets of
the tables (including the `created`/`updated` columns inherited from
`Timestamped`). -/

structure Source where
  id : Nat
  title : Option String
  content : Option String
  full_text : Option String
  embedded_chunks : Nat
deriving DecidableEq

structure Note where
  id : Nat
  title : Option String
  content : Option String
deriving DecidableEq

structure SourceChunk where
  source_id : Nat
  content : String
  embedding : List ℚ
deriving DecidableEq

structure NoteChunk where
  note_id : Nat
  content : String
  embedding : List ℚ
deriving DecidableEq

structure SourceInsight where
  source_id : Nat
  content : String
deriving DecidableEq

/-- Column names of the `sources` table (class `Source` in `models.py`;
`created` and `updated` come from the `Timestamped` base). -/
def sources_columns : List String :=
  ["created", "updated", "id", "notebook_id", "type", "url", "file_path",
   "content", "title", "topics", "asset", "full_text", "embedded_chunks"]

/-- Column names of the `notes` table (class `Note` in `models.py`). -/
def notes_columns : List String :=
  ["created", "updated", "id", "title", "content", "note_type", "notebook_id"]

/-- Column names of the `source_chunks` table (class `SourceChunk` in
`models.py`; it does not extend `Timestamped`). -/
def source_chunks_columns : List String :=
  ["id", "source_id", "content", "embedding"]

/-- Column names of the `note_chunks` table (class `NoteChunk` in
`models.py`). -/
def note_chunks_columns : List String :=
  ["id", "note_id", "content", "embedding"]

/-- The relational state touched by the claims: one list of rows per table,
standing for the committed contents of the SQL database. -/
structure Database where
  sources : List Source
  notes : List Note
  source_chunks : List SourceChunk
  note_chunks : List NoteChunk
  source_insights : List SourceInsight
deriving DecidableEq

/-! ## Python truthiness helpers -/

/-- Python `a or b` on an optional string (`None` and `''` are falsy). -/
def py_or_str (a : Option String) (b : String) : String :=
  match a with
  | none => b
  | some s => if s = "" then b else s

/-- `source.full_text or source.content or ''` in `embed_source`. -/
def source_text (s : Source) : String :=
  py_or_str s.full_text (py_or_str s.content "")

/-- `note.content or ''` in `embed_note`. -/
def note_text (n : Note) : String :=
  py_or_str n.content ""

/-- Python string slicing `s[:n]`. -/
def py_slice_str (s : String) (n : Nat) : String :=
  String.mk (s.data.take n)

/-! ## Chunker -/

/-- Split a character list into consecutive groups of at most `n` characters;
the first argument is fuel, always instantiated with the list length. -/
def chunk_chars : Nat → Nat → List Char → List (List Char)
  | 0, _, _ => []
  | _, _, [] => []
  | fuel + 1, n, cs => cs.take n :: chunk_chars fuel n (cs.drop n)

/-- Modelled from the spec: `split_text` lives in `open_notebook/utils.py`,
which is not present under `src/`; spec §4.1 requires a deterministic chunker
for which empty or whitespace-only input yields an empty sequence, and which
falls back to a hard cut at `target_size` characters.  This model performs the
hard cut (a chunk size of `0` is clamped to `1`). -/
def split_text (text : String) (chunk_size : Nat) : List String :=
  if text.data.all Char.isWhitespace then []
  else (chunk_chars text.data.length (max 1 chunk_size) text.data).map String.mk

/-! ## Embedder and model manager — `open_notebook/domain/models.py`,
`open_notebook/services/vector.py` -/

/-- Failures of an embedding operation: a provider failure raised inside
`aembed`, or a Python `IndexError` from positional indexing. -/
inductive EmbedError where
  | provider
  | index
deriving DecidableEq

/-- The embedding capability (`aembed`): a batch call that either returns one
vector per text or fails as a whole. -/
def Embedder : Type :=
  List String → Except EmbedError (List (List ℚ))

/-- A resolved embedding model handle.  `ModelManager.get_model` never
produces one (it returns `None` unconditionally), so the payload is opaque. -/
structure EmbeddingModelHandle where
  model_id : String
deriving DecidableEq

/-- The `default_models` table row (`DefaultModels` in `models.py`). -/
structure DefaultModels where
  id : Nat
  default_chat_model : Option Nat
  default_transformation_model : Option Nat
  large_context_model : Option Nat
  default_text_to_speech_model : Option Nat
  default_speech_to_text_model : Option Nat
  default_embedding_model : Option Nat
  default_tools_model : Option Nat
deriving DecidableEq

/-- `ModelManager.get_model` (`domain/models.py`): the refactor constructs no
providers, so it returns `None` for every model id. -/
def get_model (_model_id : String) : Option EmbeddingModelHandle :=
  none

/-- `ModelManager.get_embedding_model`: read `default_embedding_model` from
the defaults row; if unset return `None`, otherwise delegate to `get_model`
with the stringified id. -/
def get_embedding_model (defaults : DefaultModels) : Option EmbeddingModelHandle :=
  match defaults.default_embedding_model with
  | none => none
  | some model_id => get_model (toString model_id)

/-- Which embedder `_get_embedding_model` (`services/vector.py`) ends up
using: the configured provider model when `get_embedding_model` yields one,
else the local sentence-transformers fallback. -/
inductive EmbedderChoice where
  | provider (m : EmbeddingModelHandle)
  | localFallback
deriving DecidableEq

/-- `_get_embedding_model` (`services/vector.py`). -/
def _get_embedding_model (defaults : DefaultModels) : EmbedderChoice :=
  match get_embedding_model defaults with
  | some m => EmbedderChoice.provider m
  | none => EmbedderChoice.localFallback

/-- `embed_texts` (`services/vector.py`): empty input short-circuits to `[]`
without any provider call; otherwise the batch is delegated to the selected
embedder (the float re-coercion of the Python code is the identity here). -/
def embed_texts (emb : Embedder) (chunks : List String) :
    Except EmbedError (List (List ℚ)) :=
  if chunks = [] then Except.ok [] else emb chunks

/-! ## Embedding operations — `embed_source` / `embed_note`
(`services/vector.py`)

The Python functions mutate the session and commit; here they return the new
committed `Database` (plus the refreshed parent row for `embed_source`, whose
`embedded_chunks` counter is written back).  An exception anywhere before the
commit leaves the caller's database untouched, which the `Except.error` result
models: no partial state is ever produced. -/

/-- The chunk rows built by `embed_source`'s list comprehension: row `i`
pairs chunk `parts[i]` with vector `vectors[i]`. -/
def source_chunk_rows (sid : Nat) (parts : List String)
    (vectors : List (List ℚ)) : List SourceChunk :=
  (parts.zip vectors).map fun cv =>
    { source_id := sid, content := cv.1, embedding := cv.2 }

/-- The chunk rows built by `embed_note`'s list comprehension. -/
def note_chunk_rows (nid : Nat) (parts : List String)
    (vectors : List (List ℚ)) : List NoteChunk :=
  (parts.zip vectors).map fun cv =>
    { note_id := nid, content := cv.1, embedding := cv.2 }

/-- `embed_source`: chunk the source text, embed the chunks as one batch,
append one `SourceChunk` row per chunk, bump the `embedded_chunks` counter by
the number of rows written, commit, and return the number written.  Indexing
`vectors[i]` for `i < len(parts)` raises `IndexError` when the embedder
returned fewer vectors than chunks. -/
def embed_source (emb : Embedder) (db : Database) (source : Source)
    (chunk_size : Nat := 800) : Except EmbedError (Database × Source × Nat) :=
  let text := source_text source
  if text = "" then Except.ok (db, source, 0)
  else
    let parts := split_text text chunk_size
    match embed_texts emb parts with
    | Except.error e => Except.error e
    | Except.ok vectors =>
      if parts.length ≤ vectors.length then
        let to_add := source_chunk_rows source.id parts vectors
        let source' : Source :=
          { source with embedded_chunks := source.embedded_chunks + to_add.length }
        let db' : Database :=
          { db with
            source_chunks := db.source_chunks ++ to_add,
            sources := db.sources.map fun r => if r.id == source.id then source' else r }
        Except.ok (db', source', to_add.length)
      else Except.error EmbedError.index

/-- `embed_note`: as `embed_source`, but the note row itself is never touched
— no counter exists on the `notes` table and none is updated. -/
def embed_note (emb : Embedder) (db : Database) (note : Note)
    (chunk_size : Nat := 800) : Except EmbedError (Database × Nat) :=
  let text := note_text note
  if text = "" then Except.ok (db, 0)
  else
    let parts := split_text text chunk_size
    match embed_texts emb parts with
    | Except.error e => Except.error e
    | Except.ok vectors =>
      if parts.length ≤ vectors.length then
        let to_add := note_chunk_rows note.id parts vectors
        Except.ok ({ db with note_chunks := db.note_chunks ++ to_add }, to_add.length)
      else Except.error EmbedError.index

/-- Number of persisted chunk rows for a source parent (spec `count_chunks`,
realised as a SQL `count(*)` over `source_chunks`). -/
def count_source_chunks (db : Database) (sid : Nat) : Nat :=
  (db.source_chunks.filter fun c => c.source_id == sid).length

/-- Number of persisted chunk rows for a note parent. -/
def count_note_chunks (db : Database) (nid : Nat) : Nat :=
  (db.note_chunks.filter fun c => c.note_id == nid).length

/-! ## SQL `LIKE` pattern matching

`search_knowledge_base` builds the pattern `f'%{query.lower()}%'` and applies
PostgreSQL `ILIKE`.  `ILIKE` compares case-insensitively; `%` matches any
character run, `_` any single character, and a backslash escapes the next
pattern character (PostgreSQL's default escape; a trailing backslash is a
pattern error, modelled as no match).  The recursion is structural in the
pattern: a leading `%` tries every suffix of the candidate string. -/

def like_match : List Char → List Char → Bool
  | [], cs => cs.isEmpty
  | p :: ps, cs =>
    if p = '%' then
      (List.range (cs.length + 1)).any fun i => like_match ps (cs.drop i)
    else if p = '_' then
      match cs with
      | [] => false
      | _ :: cs' => like_match ps cs'
    else if p = '\\' then
      match ps with
      | [] => false
      | q :: ps' =>
        match cs with
        | [] => false
        | c :: cs' => q == c && like_match ps' cs'
    else
      match cs with
      | [] => false
      | c :: cs' => p == c && like_match ps cs'

/-- Lowercase a string at the character level (ASCII `lower`, as in Python's
`str.lower` and PostgreSQL's case folding for `ILIKE` on ASCII data). -/
def lower_chars (s : String) : List Char :=
  s.data.map Char.toLower

/-- `column.ilike(pattern)`: `NULL` never matches; otherwise case-insensitive
`LIKE`.  The route lowercases the query before `ILIKE` additionally folds
case; since ASCII lowering is idempotent the composition is modelled by
lowering each side once. -/
def ilike (field : Option String) (pattern : List Char) : Bool :=
  match field with
  | none => false
  | some s => like_match (pattern.map Char.toLower) (s.data.map Char.toLower)

/-- The route's pattern `f'%{query.lower()}%'` (the lowering itself is folded
into `ilike`). -/
def like_pattern (query : String) : List Char :=
  '%' :: (query.data ++ ['%'])

/-! ## Search request/response shapes

`api/models.py` is not under `src/`; the request and response records are
modelled from the spec (§6) and from the attribute accesses in
`api/routers/search.py`. -/

/-- Modelled from the spec: the search request shape of §6 (`api/models.py`
is missing from `src/`); fields as accessed by `search_knowledge_base`. -/
structure SearchRequest where
  query : String
  type : String
  limit : Nat
  search_sources : Bool
  search_notes : Bool
  minimum_score : ℚ
deriving DecidableEq

/-- One result dict produced by the search route.  Text-mode hits carry a
`score` key; vector-mode hits carry `similarity` and `matches` keys; the
optional fields model the presence or absence of each dict key. -/
structure SearchResult where
  type : String
  title : String
  parent_id : Nat
  score : Option ℚ
  similarity : Option ℚ
  match_snippets : Option (List String)
deriving DecidableEq

/-- Modelled from the spec: the search response shape of §6. -/
structure SearchResponse where
  results : List SearchResult
  total_count : Nat
  search_type : String
deriving DecidableEq

/-! ## Vector search — `vector_search` (`services/vector.py`)

The per-kind SQL statement joins the chunk table to its parent table, orders
by pgvector cosine distance ascending and truncates to `results` rows.  The
`dist` parameter stands for the database's `cosine_distance` operator. -/

/-- A joined row of the per-kind nearest query: chunk, parent, distance. -/
structure Cand (χ π : Type) where
  chunk : χ
  parent : π
  distance : ℚ
deriving DecidableEq

/-- Ordering of candidate rows used by the SQL `ORDER BY distance`. -/
def cand_le {χ π : Type} (a b : Cand χ π) : Prop :=
  a.distance ≤ b.distance

instance {χ π : Type} : DecidableRel (cand_le (χ := χ) (π := π)) :=
  fun a b => inferInstanceAs (Decidable (a.distance ≤ b.distance))

instance {χ π : Type} : IsTotal (Cand χ π) cand_le :=
  ⟨fun a b => le_total a.distance b.distance⟩

instance {χ π : Type} : IsTrans (Cand χ π) cand_le :=
  ⟨fun _ _ _ h h' => le_trans h h'⟩

/-- The joined rows of `select(SourceChunk, Source, distance).join(Source)`:
every chunk paired with its (unique, primary-key) parent row. -/
def source_join (db : Database) (dist : List ℚ → List ℚ → ℚ) (vec : List ℚ) :
    List (Cand SourceChunk Source) :=
  db.source_chunks.filterMap fun c =>
    (db.sources.find? fun s => s.id == c.source_id).map fun s =>
      { chunk := c, parent := s, distance := dist c.embedding vec }

/-- The joined note rows. -/
def note_join (db : Database) (dist : List ℚ → List ℚ → ℚ) (vec : List ℚ) :
    List (Cand NoteChunk Note) :=
  db.note_chunks.filterMap fun c =>
    (db.notes.find? fun n => n.id == c.note_id).map fun n =>
      { chunk := c, parent := n, distance := dist c.embedding vec }

/-- `ORDER BY distance LIMIT results` over the joined source rows (modelled
with a stable sort). -/
def nearest_sources (db : Database) (dist : List ℚ → List ℚ → ℚ) (vec : List ℚ)
    (limit : Nat) : List (Cand SourceChunk Source) :=
  (List.insertionSort cand_le (source_join db dist vec)).take limit

/-- `ORDER BY distance LIMIT results` over the joined note rows. -/
def nearest_notes (db : Database) (dist : List ℚ → List ℚ → ℚ) (vec : List ℚ)
    (limit : Nat) : List (Cand NoteChunk Note) :=
  (List.insertionSort cand_le (note_join db dist vec)).take limit

/-- The result dict built for one accepted source candidate (`vector_search`
loop body): similarity is `1.0 - distance`, the snippet is the first 300
characters of the chunk.  `str(parent.id)` is modelled by keeping the id. -/
def mk_source_hit (t : Cand SourceChunk Source) : SearchResult :=
  { type := "source", title := py_or_str t.parent.title "Untitled Source",
    parent_id := t.parent.id, score := none, similarity := some (1 - t.distance),
    match_snippets := some [py_slice_str t.chunk.content 300] }

/-- The result dict built for one accepted note candidate. -/
def mk_note_hit (t : Cand NoteChunk Note) : SearchResult :=
  { type := "note", title := py_or_str t.parent.title "Untitled Note",
    parent_id := t.parent.id, score := none, similarity := some (1 - t.distance),
    match_snippets := some [py_slice_str t.chunk.content 300] }

/-- The source block of `vector_search`: keep, in nearest-first order, the
candidates whose distance is at most `threshold = 1.0 - minimum_score`. -/
def source_vector_hits (db : Database) (dist : List ℚ → List ℚ → ℚ)
    (vec : List ℚ) (limit : Nat) (threshold : ℚ) : List SearchResult :=
  (nearest_sources db dist vec limit).filterMap fun t =>
    if t.distance ≤ threshold then some (mk_source_hit t) else none

/-- The note block of `vector_search`. -/
def note_vector_hits (db : Database) (dist : List ℚ → List ℚ → ℚ)
    (vec : List ℚ) (limit : Nat) (threshold : ℚ) : List SearchResult :=
  (nearest_notes db dist vec limit).filterMap fun t =>
    if t.distance ≤ threshold then some (mk_note_hit t) else none

/-- `vector_search` (`services/vector.py`): embed the keyword (`[0]` raises
`IndexError` on an empty embedder result), run both enabled per-kind blocks,
concatenate source hits before note hits without re-sorting, and truncate to
`results or 50` (Python `or`: `50` replaces a zero limit). -/
def vector_search (emb : Embedder) (dist : List ℚ → List ℚ → ℚ) (db : Database)
    (keyword : String) (results : Nat := 50) (source : Bool := true)
    (note : Bool := true) (minimum_score : ℚ := 1/5) :
    Except EmbedError (List SearchResult) :=
  match embed_texts emb [keyword] with
  | Except.error e => Except.error e
  | Except.ok [] => Except.error EmbedError.index
  | Except.ok (vec :: _) =>
    let threshold : ℚ := 1 - minimum_score
    let src_found := if source then source_vector_hits db dist vec results threshold else []
    let note_found := if note then note_vector_hits db dist vec results threshold else []
    Except.ok ((src_found ++ note_found).take (if results = 0 then 50 else results))

/-! ## Lexical search and the search route — `api/routers/search.py` -/

/-- The text-mode hit dict (fixed `score` of `1.0`). -/
def mk_text_source_hit (s : Source) : SearchResult :=
  { type := "source", title := py_or_str s.title "Untitled Source",
    parent_id := s.id, score := some 1, similarity := none, match_snippets := none }

/-- The text-mode note hit dict. -/
def mk_text_note_hit (n : Note) : SearchResult :=
  { type := "note", title := py_or_str n.title "Untitled Note",
    parent_id := n.id, score := some 1, similarity := none, match_snippets := none }

/-- The text branch of `search_knowledge_base`: `ILIKE` the pattern
`%query.lower()%` against `title`/`full_text`/`content` of sources and
`title`/`content` of notes, `LIMIT` per kind, sources first. -/
def search_text (db : Database) (query : String) (limit : Nat)
    (search_sources search_notes : Bool) : List SearchResult :=
  let pat := like_pattern query
  let src_hits :=
    if search_sources then
      ((db.sources.filter fun s =>
          ilike s.title pat || ilike s.full_text pat || ilike s.content pat).take
        limit).map mk_text_source_hit
    else []
  let note_hits :=
    if search_notes then
      ((db.notes.filter fun n => ilike n.title pat || ilike n.content pat).take
        limit).map mk_text_note_hit
    else []
  src_hits ++ note_hits

/-- `search_knowledge_base` (`api/routers/search.py`): dispatch on the request
type — no validation of the query string happens in either branch — and wrap
the hit list in a response.  (`results or []` and
`len(results) if results else 0` coincide with the list and its length.) -/
def search_knowledge_base (emb : Embedder) (dist : List ℚ → List ℚ → ℚ)
    (db : Database) (req : SearchRequest) : Except EmbedError SearchResponse :=
  if req.type = "vector" then
    match vector_search emb dist db req.query req.limit req.search_sources
        req.search_notes req.minimum_score with
    | Except.error e => Except.error e
    | Except.ok found => Except.ok ⟨found, found.length, req.type⟩
  else
    let found := search_text db req.query req.limit req.search_sources req.search_notes
    Except.ok ⟨found, found.length, req.type⟩

/-! ## Legacy domain-layer search guards — `open_notebook/domain/notebook.py`

These SurrealDB-backed helpers are not called by the API route, but they are
where the empty-keyword validation lives.  Their query bodies run through
`repo_query` (`open_notebook/database/repository.py`, not under `src/`), so
the post-validation body is passed in as a parameter. -/

/-- Errors of the legacy domain search helpers. -/
inductive DomainSearchError where
  | invalidInput
  | databaseOperation
deriving DecidableEq

/-- `text_search` (`domain/notebook.py`): an empty keyword raises
`InvalidInputError` before any query; otherwise the `fn::text_search` call
(modelled by `body`, since `repo_query` is not under `src/`) runs, with
failures wrapped in `DatabaseOperationError`. -/
def domain_text_search (body : Except Unit (List SearchResult))
    (keyword : String) : Except DomainSearchError (List SearchResult) :=
  if keyword = "" then Except.error DomainSearchError.invalidInput
  else
    match body with
    | Except.ok r => Except.ok r
    | Except.error _ => Except.error DomainSearchError.databaseOperation

/-- `vector_search` (`domain/notebook.py`): same empty-keyword guard ahead of
the embedding call and the `fn::vector_search` query (modelled by `body`). -/
def domain_vector_search (body : Except Unit (List SearchResult))
    (keyword : String) : Except DomainSearchError (List SearchResult) :=
  if keyword = "" then Except.error DomainSearchError.invalidInput
  else
    match body with
    | Except.ok r => Except.ok r
    | Except.error _ => Except.error DomainSearchError.databaseOperation

/-! ## Source deletion — `delete_source` (`api/routers/sources.py`) -/

/-- Route-level errors of `delete_source`: 404 for an unknown id, and the
`IntegrityError` raised at commit time by PostgreSQL when the delete violates
a foreign-key constraint (caught by the route's `except Exception` and
surfaced as HTTP 500). -/
inductive ApiError where
  | notFound
  | integrityError
deriving DecidableEq

/-- `delete_source`: 404 when the source id is unknown; otherwise delete the
source's insights, delete the source row, and commit.  No statement touches
`source_chunks` or `note_chunks`.  The commit is checked against the schema of
`models.py`: `source_chunks.source_id` is a foreign key to `sources.id` with
no `ON DELETE` action, so if any chunk row still references the deleted
source, PostgreSQL rejects the transaction with `IntegrityError` and nothing
is removed (the insight deletions, issued in the same transaction, satisfy
their own foreign key because they are deleted together with the source). -/
def delete_source (db : Database) (source_id : Nat) :
    Except ApiError Database :=
  match db.sources.find? fun s => s.id == source_id with
  | none => Except.error ApiError.notFound
  | some _ =>
    if db.source_chunks.any fun c => c.source_id == source_id then
      Except.error ApiError.integrityError
    else
      Except.ok
        { db with
          sources := db.sources.filter fun s => !(s.id == source_id),
          source_insights := db.source_insights.filter fun i => !(i.source_id == source_id) }

/-! ## Spec-side comparison definitions

The spec describes lexical matching as a case-insensitive *substring* match;
`is_substring` renders that wording so it can be compared with the route's
`ILIKE`-based matcher. -/

/-- `needle` occurs contiguously inside `hay`. -/
def is_substring (needle hay : List Char) : Bool :=
  (List.range (hay.length + 1)).any fun i => needle.isPrefixOf (hay.drop i)

/-- Spec-side lexical field matcher: case-insensitive substring match on a
nullable column (`NULL` never matches). -/
def substr_opt (q : String) (field : Option String) : Bool :=
  match field with
  | none => false
  | some s => is_substring (lower_chars q) (lower_chars s)

/-- `a` is at least as similar as `b` (both carrying a `similarity` key):
the nearest-first ordering of vector-mode hits. -/
def similarity_ge (a b : SearchResult) : Prop :=
  ∃ x y, a.similarity = some x ∧ b.similarity = some y ∧ y ≤ x

/-! ## Concrete fixtures used by witnesses and counterexamples -/

/-- An embedder returning the same vector for every text. -/
def const_embedder (v : List ℚ) : Embedder :=
  fun ts => Except.ok (ts.map fun _ => v)

/-- An embedder whose batch call always fails (provider outage). -/
def failing_embedder : Embedder :=
  fun _ => Except.error EmbedError.provider

/-- Cosine distance for unit-normalized vectors, `1 - dot` (spec glossary);
the concrete stand-in for pgvector's operator in closed evaluations. -/
def unit_cosine_distance (u v : List ℚ) : ℚ :=
  1 - ((u.zip v).map fun p => p.1 * p.2).sum

/-- A degenerate distance collaborator (all distances zero), used to discharge
nonnegativity hypotheses in witnesses. -/
def zero_distance : List ℚ → List ℚ → ℚ :=
  fun _ _ => 0

def src0 : Source :=
  { id := 0, title := some "S", content := none, full_text := none, embedded_chunks := 0 }

/-- A chunk at cosine distance `3/2` from the query vector `[1]` (similarity
`-1/2`): legal for cosine distance, whose range is `[0, 2]`. -/
def chunk_far : SourceChunk :=
  { source_id := 0, content := "far", embedding := [-(1/2)] }

def db_far : Database :=
  { sources := [src0], notes := [], source_chunks := [chunk_far],
    note_chunks := [], source_insights := [] }

/-- A chunk at cosine distance `0` from the query vector `[1]`. -/
def chunk_near : SourceChunk :=
  { source_id := 0, content := "near", embedding := [1] }

def db_near : Database :=
  { sources := [src0], notes := [], source_chunks := [chunk_near],
    note_chunks := [], source_insights := [] }

def src_apple : Source :=
  { id := 0, title := some "Apple Pie Recipe", content := none, full_text := none,
    embedded_chunks := 0 }

def db_apple : Database :=
  { sources := [src_apple], notes := [], source_chunks := [], note_chunks := [],
    source_insights := [] }

def src_axxb : Source :=
  { id := 0, title := some "axxb", content := none, full_text := none,
    embedded_chunks := 0 }

def db_axxb : Database :=
  { sources := [src_axxb], notes := [], source_chunks := [], note_chunks := [],
    source_insights := [] }

/-- A source whose text splits into the three chunks `ab`, `cd`, `ef` at
`chunk_size = 2`. -/
def src_text6 : Source :=
  { id := 7, title := some "T", content := none, full_text := some "abcdef",
    embedded_chunks := 0 }

def db_text6 : Database :=
  { sources := [src_text6], notes := [], source_chunks := [], note_chunks := [],
    source_insights := [] }

def note_xy : Note :=
  { id := 3, title := some "N", content := some "xy" }

def db_note_xy : Database :=
  { sources := [], notes := [note_xy], source_chunks := [], note_chunks := [],
    source_insights := [] }

def insight0 : SourceInsight :=
  { source_id := 0, content := "an insight" }

def db_delete : Database :=
  { sources := [src0], notes := [], source_chunks := [chunk_near],
    note_chunks := [], source_insights := [insight0] }

/-- As `db_delete` but with no chunk rows for the source, so its deletion
violates no foreign key. -/
def db_delete_clean : Database :=
  { sources := [src0], notes := [], source_chunks := [],
    note_chunks := [], source_insights := [insight0] }

/-! ## Helper lemmas -/

theorem filterMap_ite_eq_filter_map {α β : Type} (p : α → Prop) [DecidablePred p]
    (f : α → β) (l : List α) :
    (l.filterMap fun a => if p a then some (f a) else none) =
      (l.filter fun a => decide (p a)).map f := by
  induction l with
  | nil => rfl
  | cons a l ih =>
    by_cases h : p a <;> simp [List.filterMap_cons, List.filter_cons, h, ih]

theorem mem_threshold_hits {χ π : Type} (cands : List (Cand χ π))
    (f : Cand χ π → SearchResult) (thr : ℚ)
    (hf : ∀ t, (f t).similarity = some (1 - t.distance))
    {t : Cand χ π} (ht : t ∈ cands) :
    f t ∈ (cands.filterMap fun u => if u.distance ≤ thr then some (f u) else none) ↔
      t.distance ≤ thr := by
  constructor
  · intro hmem
    rcases List.mem_filterMap.mp hmem with ⟨u, _, hu⟩
    by_cases hd : u.distance ≤ thr
    · rw [if_pos hd] at hu
      have hsim : (f u).similarity = (f t).similarity := by
        rw [Option.some_inj.mp hu]
      rw [hf u, hf t, Option.some_inj] at hsim
      have : u.distance = t.distance := by linarith
      linarith
    · rw [if_neg hd] at hu
      cases hu
  · intro hd
    exact List.mem_filterMap.mpr ⟨t, ht, by rw [if_pos hd]⟩

theorem mem_threshold_hits_elim {χ π : Type} {cands : List (Cand χ π)}
    {f : Cand χ π → SearchResult} {thr : ℚ} {h : SearchResult}
    (hmem : h ∈ cands.filterMap fun u => if u.distance ≤ thr then some (f u) else none) :
    ∃ t ∈ cands, h = f t ∧ t.distance ≤ thr := by
  rcases List.mem_filterMap.mp hmem with ⟨u, hu, he⟩
  by_cases hd : u.distance ≤ thr
  · rw [if_pos hd] at he
    exact ⟨u, hu, (Option.some_inj.mp he).symm, hd⟩
  · rw [if_neg hd] at he
    cases he

theorem pairwise_nearest_sources (db : Database) (dist : List ℚ → List ℚ → ℚ)
    (vec : List ℚ) (limit : Nat) :
    (nearest_sources db dist vec limit).Pairwise cand_le :=
  List.Pairwise.sublist (List.take_sublist _ _)
    (List.sorted_insertionSort cand_le (source_join db dist vec))

theorem pairwise_nearest_notes (db : Database) (dist : List ℚ → List ℚ → ℚ)
    (vec : List ℚ) (limit : Nat) :
    (nearest_notes db dist vec limit).Pairwise cand_le :=
  List.Pairwise.sublist (List.take_sublist _ _)
    (List.sorted_insertionSort cand_le (note_join db dist vec))

theorem pairwise_threshold_hits {χ π : Type} {cands : List (Cand χ π)}
    (f : Cand χ π → SearchResult) (thr : ℚ)
    (hf : ∀ t, (f t).similarity = some (1 - t.distance))
    (hp : cands.Pairwise cand_le) :
    (cands.filterMap fun u => if u.distance ≤ thr then some (f u) else none).Pairwise
      similarity_ge := by
  rw [filterMap_ite_eq_filter_map]
  rw [List.pairwise_map]
  refine List.Pairwise.filter _ (hp.imp ?_)
  intro a b hab
  exact ⟨1 - a.distance, 1 - b.distance, hf a, hf b, by
    simpa using sub_le_sub_left hab 1⟩

theorem like_match_nil (cs : List Char) : like_match [] cs = cs.isEmpty := rfl

theorem like_match_pct (ps : List Char) (cs : List Char) :
    like_match ('%' :: ps) cs =
      (List.range (cs.length + 1)).any fun i => like_match ps (cs.drop i) := by
  rw [like_match.eq_def]
  simp

theorem like_match_pct_iff {ps cs : List Char} :
    like_match ('%' :: ps) cs = true ↔ ∃ i, like_match ps (cs.drop i) = true := by
  rw [like_match_pct, List.any_eq_true]
  constructor
  · rintro ⟨i, _, hi⟩
    exact ⟨i, hi⟩
  · rintro ⟨i, hi⟩
    by_cases hle : i ≤ cs.length
    · exact ⟨i, List.mem_range.mpr (Nat.lt_succ_of_le hle), hi⟩
    · refine ⟨cs.length, List.mem_range.mpr (Nat.lt_succ_self _), ?_⟩
      rw [List.drop_length]
      rwa [List.drop_eq_nil_of_le (le_of_not_le hle)] at hi

theorem like_match_single_pct (cs : List Char) : like_match ['%'] cs = true := by
  rw [show (['%'] : List Char) = '%' :: [] from rfl, like_match_pct, List.any_eq_true]
  exact ⟨cs.length, List.mem_range.mpr (Nat.lt_succ_self _), by
    rw [List.drop_length, like_match_nil]; rfl⟩

theorem like_match_double_pct (cs : List Char) : like_match ['%', '%'] cs = true := by
  rw [show (['%', '%'] : List Char) = '%' :: ['%'] from rfl]
  exact like_match_pct_iff.mpr ⟨0, by rw [List.drop_zero]; exact like_match_single_pct cs⟩

theorem like_match_lit_cons {c : Char} (hc1 : c ≠ '%') (hc2 : c ≠ '_')
    (hc3 : c ≠ '\\') (ps : List Char) (d : Char) (ds : List Char) :
    like_match (c :: ps) (d :: ds) = (c == d && like_match ps ds) := by
  rw [like_match.eq_def]
  simp [hc1, hc2, hc3]

theorem like_match_lit_cons_nil {c : Char} (hc1 : c ≠ '%') (ps : List Char) :
    like_match (c :: ps) [] = false := by
  rw [like_match.eq_def]
  by_cases hc2 : c = '_'
  · simp [hc1, hc2]
  · by_cases hc3 : c = '\\'
    · simp only [hc1, hc2, hc3, if_neg, if_pos, if_false, ite_true, ite_false]
      cases ps <;> simp
    · simp [hc1, hc2, hc3]

theorem like_match_lit_append (lit : List Char)
    (hlit : ∀ c ∈ lit, c ≠ '%' ∧ c ≠ '_' ∧ c ≠ '\\') (ps cs : List Char) :
    like_match (lit ++ ps) cs =
      (lit.isPrefixOf cs && like_match ps (cs.drop lit.length)) := by
  induction lit generalizing cs with
  | nil => simp [List.isPrefixOf]
  | cons c lit ih =>
    obtain ⟨h1, h2, h3⟩ := hlit c (List.mem_cons_self c lit)
    have hlit' : ∀ a ∈ lit, a ≠ '%' ∧ a ≠ '_' ∧ a ≠ '\\' :=
      fun a ha => hlit a (List.mem_cons_of_mem c ha)
    cases cs with
    | nil =>
      rw [List.cons_append, like_match_lit_cons_nil h1]
      simp [List.isPrefixOf]
    | cons d ds =>
      rw [List.cons_append, like_match_lit_cons h1 h2 h3]
      simp only [List.isPrefixOf, List.length_cons, List.drop_succ_cons]
      cases hcd : (c == d)
      · simp
      · simp [ih hlit' ds]

theorem like_match_eq_is_substring (lit : List Char)
    (hlit : ∀ c ∈ lit, c ≠ '%' ∧ c ≠ '_' ∧ c ≠ '\\') (cs : List Char) :
    like_match ('%' :: (lit ++ ['%'])) cs = is_substring lit cs := by
  rw [like_match_pct, is_substring]
  congr 1
  funext i
  rw [like_match_lit_append lit hlit ['%'] (cs.drop i), like_match_single_pct,
    Bool.and_true]

theorem map_toLower_like_pattern (q : String) :
    (like_pattern q).map Char.toLower = '%' :: (lower_chars q ++ ['%']) := by
  have hpct : Char.toLower '%' = '%' := rfl
  simp [like_pattern, lower_chars, hpct]

theorem ilike_eq_substr_opt (q : String)
    (hq : ∀ c ∈ lower_chars q, c ≠ '%' ∧ c ≠ '_' ∧ c ≠ '\\')
    (field : Option String) :
    ilike field (like_pattern q) = substr_opt q field := by
  cases field with
  | none => rfl
  | some s =>
    show like_match ((like_pattern q).map Char.toLower) (s.data.map Char.toLower) = _
    rw [map_toLower_like_pattern, like_match_eq_is_substring (lower_chars q) hq]
    rfl

theorem ilike_empty_pattern (field : Option String) :
    ilike field (like_pattern "") = field.isSome := by
  cases field with
  | none => rfl
  | some s =>
    show like_match ((like_pattern "").map Char.toLower) (s.data.map Char.toLower) = _
    have h : (like_pattern "").map Char.toLower = ['%', '%'] := rfl
    rw [h, like_match_double_pct]
    rfl

/-- Characterization of a successful `embed_source` run. -/
theorem embed_source_eq_ok (emb : Embedder) (db : Database) (s : Source)
    (sz : Nat) (vectors : List (List ℚ))
    (hemb : embed_texts emb (split_text (source_text s) sz) = Except.ok vectors)
    (hlen : (split_text (source_text s) sz).length ≤ vectors.length)
    (hs : source_text s ≠ "") :
    embed_source emb db s sz = Except.ok
      ({ db with
         source_chunks := db.source_chunks ++
           source_chunk_rows s.id (split_text (source_text s) sz) vectors,
         sources := db.sources.map fun r =>
           if r.id == s.id then
             { s with embedded_chunks := s.embedded_chunks +
                 (source_chunk_rows s.id (split_text (source_text s) sz) vectors).length }
           else r },
       { s with embedded_chunks := s.embedded_chunks +
           (source_chunk_rows s.id (split_text (source_text s) sz) vectors).length },
       (source_chunk_rows s.id (split_text (source_text s) sz) vectors).length) := by
  unfold embed_source
  rw [if_neg hs]
  dsimp only
  rw [hemb]
  simp [hlen]

/-- Characterization of a successful `embed_note` run. -/
theorem embed_note_eq_ok (emb : Embedder) (db : Database) (n : Note)
    (sz : Nat) (vectors : List (List ℚ))
    (hemb : embed_texts emb (split_text (note_text n) sz) = Except.ok vectors)
    (hlen : (split_text (note_text n) sz).length ≤ vectors.length)
    (hn : note_text n ≠ "") :
    embed_note emb db n sz = Except.ok
      ({ db with
         note_chunks := db.note_chunks ++
           note_chunk_rows n.id (split_text (note_text n) sz) vectors },
       (note_chunk_rows n.id (split_text (note_text n) sz) vectors).length) := by
  unfold embed_note
  rw [if_neg hn]
  dsimp only
  rw [hemb]
  simp [hlen]

theorem source_chunk_rows_length (sid : Nat) (parts : List String)
    (vectors : List (List ℚ)) (hlen : parts.length ≤ vectors.length) :
    (source_chunk_rows sid parts vectors).length = parts.length := by
  simp [source_chunk_rows, Nat.min_eq_left hlen]

theorem source_chunk_rows_contents (sid : Nat) (parts : List String)
    (vectors : List (List ℚ)) (hlen : parts.length ≤ vectors.length) :
    (source_chunk_rows sid parts vectors).map SourceChunk.content = parts := by
  rw [source_chunk_rows, List.map_map]
  exact List.map_fst_zip parts vectors hlen

theorem source_chunk_rows_ids (sid : Nat) (parts : List String)
    (vectors : List (List ℚ)) :
    ∀ c ∈ source_chunk_rows sid parts vectors, c.source_id = sid := by
  intro c hc
  rcases List.mem_map.mp hc with ⟨cv, _, hcv⟩
  rw [← hcv]

/-! ## Claim theorems -/

/-- C10: for every defaults row, `ModelManager.get_embedding_model` returns
`None` (because `get_model` unconditionally returns `None`), so
`_get_embedding_model` always selects the local sentence-transformers
fallback, regardless of whether a `default_embedding_model` is configured. -/
theorem c10_embedding_model_always_local_fallback :
    ∀ defaults : DefaultModels,
      get_embedding_model defaults = none ∧
      _get_embedding_model defaults = EmbedderChoice.localFallback := by
  intro d
  have h1 : get_embedding_model d = none := by
    cases hd : d.default_embedding_model <;>
      simp [get_embedding_model, get_model, hd]
  refine ⟨h1, ?_⟩
  unfold _get_embedding_model
  rw [h1]

/-- C9 counterexample: deleting a source that still has chunk rows does not
remove the parent and orphan its chunks — the commit violates the
`source_chunks.source_id → sources.id` foreign key, so the route fails with
`IntegrityError` (HTTP 500) and removes nothing.  `db_delete` holds the
source, one insight and one chunk for parent `0`: the source exists, a chunk
references it, and the delete errors instead of succeeding. -/
theorem c9_counterexample :
    db_delete.sources.find? (fun r => r.id == 0) = some src0 ∧
    db_delete.source_chunks.any (fun c => c.source_id == 0) = true ∧
    delete_source db_delete 0 = Except.error ApiError.integrityError := by
  refine ⟨rfl, rfl, rfl⟩

/-- C9 as amended: the route issues no chunk deletion, and the missing
cascade surfaces as a constraint failure rather than as orphans.  If the
source exists and any chunk row still references it, the delete fails whole
with `IntegrityError` and removes nothing (an `Except.error` result carries
no new state — parent, insights and chunks all remain).  If no chunk row
references it, the delete succeeds, removing the source row and its insights
while leaving both chunk tables and the notes table unchanged. -/
theorem c9_delete_restricted_no_cascade (db : Database) (sid : Nat) (s : Source)
    (hfind : db.sources.find? (fun r => r.id == sid) = some s) :
    (db.source_chunks.any (fun c => c.source_id == sid) = true →
      delete_source db sid = Except.error ApiError.integrityError) ∧
    (db.source_chunks.any (fun c => c.source_id == sid) = false →
      ∃ db', delete_source db sid = Except.ok db' ∧
        db'.source_chunks = db.source_chunks ∧
        db'.note_chunks = db.note_chunks ∧
        db'.notes = db.notes ∧
        (∀ r ∈ db'.sources, r.id ≠ sid) ∧
        (∀ i ∈ db'.source_insights, i.source_id ≠ sid) ∧
        (∀ r ∈ db.sources, r.id ≠ sid → r ∈ db'.sources) ∧
        (∀ i ∈ db.source_insights, i.source_id ≠ sid → i ∈ db'.source_insights)) := by
  constructor
  · intro hany
    unfold delete_source
    rw [hfind]
    simp [hany]
  · intro hnone
    refine ⟨{ db with
        sources := db.sources.filter fun r => !(r.id == sid),
        source_insights := db.source_insights.filter fun i => !(i.source_id == sid) },
      ?_, rfl, rfl, rfl, ?_, ?_, ?_, ?_⟩
    · unfold delete_source
      rw [hfind]
      simp [hnone]
    · intro r hr
      have := List.of_mem_filter hr
      simpa using this
    · intro i hi
      have := List.of_mem_filter hi
      simpa using this
    · intro r hr hne
      exact List.mem_filter.mpr ⟨hr, by simpa using hne⟩
    · intro i hi hne
      exact List.mem_filter.mpr ⟨hi, by simpa using hne⟩

/-- Witness for the amended C9, exercising both branches: with a chunk
present the delete errors; on the chunk-free copy it succeeds and removes the
source row and its insight while touching no chunk table. -/
theorem c9_witness :
    delete_source db_delete 0 = Except.error ApiError.integrityError ∧
    ∃ db', delete_source db_delete_clean 0 = Except.ok db' ∧
      db'.source_chunks = db_delete_clean.source_chunks ∧
      db'.note_chunks = db_delete_clean.note_chunks ∧
      db'.notes = db_delete_clean.notes ∧
      (∀ r ∈ db'.sources, r.id ≠ 0) ∧
      (∀ i ∈ db'.source_insights, i.source_id ≠ 0) ∧
      (∀ r ∈ db_delete_clean.sources, r.id ≠ 0 → r ∈ db'.sources) ∧
      (∀ i ∈ db_delete_clean.source_insights, i.source_id ≠ 0 → i ∈ db'.source_insights) :=
  ⟨(c9_delete_restricted_no_cascade db_delete 0 src0 rfl).1 rfl,
    (c9_delete_restricted_no_cascade db_delete_clean 0 src0 rfl).2 rfl⟩

/-- C6: a failing embedding batch aborts the whole operation.  `embed_texts`
is called before any row is staged, so the raised error propagates and the
operation produces no new database state at all — no chunk rows are written
and the parent's counter is untouched (an `Except.error` result carries no
state); the error value itself is surfaced unchanged to the caller. -/
theorem c6_embed_failure_is_atomic (emb : Embedder) (db : Database)
    (s : Source) (nt : Note) (sz : Nat) (e e' : EmbedError)
    (hs : source_text s ≠ "")
    (hps : split_text (source_text s) sz ≠ [])
    (hfs : emb (split_text (source_text s) sz) = Except.error e)
    (hn : note_text nt ≠ "")
    (hpn : split_text (note_text nt) sz ≠ [])
    (hfn : emb (split_text (note_text nt) sz) = Except.error e') :
    embed_source emb db s sz = Except.error e ∧
    embed_note emb db nt sz = Except.error e' := by
  constructor
  · unfold embed_source
    rw [if_neg hs]
    dsimp only
    rw [embed_texts, if_neg hps, hfs]
  · unfold embed_note
    rw [if_neg hn]
    dsimp only
    rw [embed_texts, if_neg hpn, hfn]

/-- Witness for C6: a provider outage while embedding the concrete source
`src_text6` and note `note_xy`. -/
theorem c6_witness :
    source_text src_text6 ≠ "" ∧
    split_text (source_text src_text6) 2 ≠ [] ∧
    failing_embedder (split_text (source_text src_text6) 2) =
      Except.error EmbedError.provider ∧
    note_text note_xy ≠ "" ∧
    split_text (note_text note_xy) 2 ≠ [] ∧
    failing_embedder (split_text (note_text note_xy) 2) =
      Except.error EmbedError.provider ∧
    embed_source failing_embedder db_text6 src_text6 2 =
      Except.error EmbedError.provider ∧
    embed_note failing_embedder db_note_xy note_xy 2 =
      Except.error EmbedError.provider := by
  refine ⟨by decide, by decide, rfl, by decide, by decide, rfl, ?_, ?_⟩
  · exact (c6_embed_failure_is_atomic failing_embedder db_text6 src_text6 note_xy 2
      EmbedError.provider EmbedError.provider (by decide) (by decide) rfl
      (by decide) (by decide) rfl).1
  · exact (c6_embed_failure_is_atomic failing_embedder db_note_xy src_text6 note_xy 2
      EmbedError.provider EmbedError.provider (by decide) (by decide) rfl
      (by decide) (by decide) rfl).2

/-- Shared helper: with both kinds enabled and a nonzero limit,
`vector_search` returns the truncated concatenation of the two filtered
blocks. -/
theorem vector_search_ok (emb : Embedder) (dist : List ℚ → List ℚ → ℚ)
    (db : Database) (keyword : String) (results : Nat) (minimum_score : ℚ)
    (vec : List ℚ) (rest : List (List ℚ))
    (hemb : embed_texts emb [keyword] = Except.ok (vec :: rest))
    (hres : 0 < results) :
    vector_search emb dist db keyword results true true minimum_score =
      Except.ok ((source_vector_hits db dist vec results (1 - minimum_score) ++
        note_vector_hits db dist vec results (1 - minimum_score)).take results) := by
  unfold vector_search
  rw [hemb]
  dsimp only
  rw [if_neg (Nat.pos_iff_ne_zero.mp hres)]
  simp

/-- Shared helper: every nearest-query source candidate's distance is a value
of the distance collaborator. -/
theorem nearest_sources_distance_nonneg {db : Database}
    {dist : List ℚ → List ℚ → ℚ} {vec : List ℚ} {limit : Nat}
    (hd : ∀ u v, 0 ≤ dist u v) :
    ∀ t ∈ nearest_sources db dist vec limit, 0 ≤ t.distance := by
  intro t ht
  have ht' : t ∈ source_join db dist vec :=
    ((List.perm_insertionSort cand_le _).mem_iff).mp
      (List.mem_of_mem_take ht)
  rcases List.mem_filterMap.mp ht' with ⟨c, _, hc⟩
  rcases Option.map_eq_some'.mp hc with ⟨s, _, hs⟩
  rw [← hs]
  exact hd _ _

/-- Shared helper: every nearest-query note candidate's distance is
nonnegative when the distance collaborator is. -/
theorem nearest_notes_distance_nonneg {db : Database}
    {dist : List ℚ → List ℚ → ℚ} {vec : List ℚ} {limit : Nat}
    (hd : ∀ u v, 0 ≤ dist u v) :
    ∀ t ∈ nearest_notes db dist vec limit, 0 ≤ t.distance := by
  intro t ht
  have ht' : t ∈ note_join db dist vec :=
    ((List.perm_insertionSort cand_le _).mem_iff).mp
      (List.mem_of_mem_take ht)
  rcases List.mem_filterMap.mp ht' with ⟨c, _, hc⟩
  rcases Option.map_eq_some'.mp hc with ⟨n, _, hn⟩
  rw [← hn]
  exact hd _ _

/-- C1: within each per-kind block of `vector_search`, every candidate of the
nearest query is reported with similarity `1 - distance`, and it appears in
the block's (pre-merge) result list iff that similarity is at least
`minimum_score` — the code's filter `distance ≤ 1 - minimum_score` is exactly
`similarity ≥ minimum_score` in exact arithmetic. -/
theorem c1_similarity_threshold_filter (db : Database)
    (dist : List ℚ → List ℚ → ℚ) (vec : List ℚ) (results : Nat)
    (minimum_score : ℚ) :
    (∀ t ∈ nearest_sources db dist vec results,
        (mk_source_hit t).similarity = some (1 - t.distance) ∧
          (mk_source_hit t ∈ source_vector_hits db dist vec results (1 - minimum_score) ↔
            minimum_score ≤ 1 - t.distance)) ∧
    (∀ h ∈ source_vector_hits db dist vec results (1 - minimum_score),
        ∃ t ∈ nearest_sources db dist vec results,
          h = mk_source_hit t ∧ minimum_score ≤ 1 - t.distance) ∧
    (∀ t ∈ nearest_notes db dist vec results,
        (mk_note_hit t).similarity = some (1 - t.distance) ∧
          (mk_note_hit t ∈ note_vector_hits db dist vec results (1 - minimum_score) ↔
            minimum_score ≤ 1 - t.distance)) ∧
    (∀ h ∈ note_vector_hits db dist vec results (1 - minimum_score),
        ∃ t ∈ nearest_notes db dist vec results,
          h = mk_note_hit t ∧ minimum_score ≤ 1 - t.distance) := by
  refine ⟨fun t ht => ⟨rfl, ?_⟩, fun h hm => ?_, fun t ht => ⟨rfl, ?_⟩, fun h hm => ?_⟩
  · rw [source_vector_hits,
      mem_threshold_hits (nearest_sources db dist vec results) mk_source_hit
        (1 - minimum_score) (fun _ => rfl) ht]
    constructor <;> intro <;> linarith
  · rcases mem_threshold_hits_elim hm with ⟨t, ht, he, hd⟩
    exact ⟨t, ht, he, by linarith⟩
  · rw [note_vector_hits,
      mem_threshold_hits (nearest_notes db dist vec results) mk_note_hit
        (1 - minimum_score) (fun _ => rfl) ht]
    constructor <;> intro <;> linarith
  · rcases mem_threshold_hits_elim hm with ⟨t, ht, he, hd⟩
    exact ⟨t, ht, he, by linarith⟩

/-- Witness for C1: with query vector `[1]` and chunk embedding `[1]`
(distance `0`, similarity `1`), the candidate passes a `minimum_score` of
`1/2` and is listed. -/
theorem c1_witness :
    (⟨chunk_near, src0, 0⟩ : Cand SourceChunk Source) ∈
      nearest_sources db_near unit_cosine_distance [1] 10 ∧
    mk_source_hit ⟨chunk_near, src0, 0⟩ ∈
      source_vector_hits db_near unit_cosine_distance [1] 10 (1 - 1/2) := by
  have hmem : (⟨chunk_near, src0, 0⟩ : Cand SourceChunk Source) ∈
      nearest_sources db_near unit_cosine_distance [1] 10 := by
    have hev : nearest_sources db_near unit_cosine_distance [1] 10 =
        [⟨chunk_near, src0, 0⟩] := by
      norm_num [nearest_sources, source_join, db_near, chunk_near, src0,
        unit_cosine_distance, List.insertionSort, List.filterMap, List.find?]
    rw [hev]
    exact List.mem_singleton_self _
  exact ⟨hmem,
    ((c1_similarity_threshold_filter db_near unit_cosine_distance [1] 10 (1/2)).1
      ⟨chunk_near, src0, 0⟩ hmem).2.mpr (by norm_num)⟩

/-- C3: with both kinds enabled and a nonzero limit, the vector-search result
is literally the concatenation of the filtered source block and the filtered
note block — all source hits first, then all note hits, with no global
re-sort — truncated to the overall limit; and each block is internally
ordered nearest-first (non-increasing similarity, i.e. non-decreasing cosine
distance). -/
theorem c3_kind_order_merge_truncate (emb : Embedder)
    (dist : List ℚ → List ℚ → ℚ) (db : Database) (keyword : String)
    (results : Nat) (minimum_score : ℚ) (vec : List ℚ) (rest : List (List ℚ))
    (hemb : embed_texts emb [keyword] = Except.ok (vec :: rest))
    (hres : 0 < results) :
    vector_search emb dist db keyword results true true minimum_score =
      Except.ok ((source_vector_hits db dist vec results (1 - minimum_score) ++
        note_vector_hits db dist vec results (1 - minimum_score)).take results) ∧
    (source_vector_hits db dist vec results (1 - minimum_score)).Pairwise
      similarity_ge ∧
    (note_vector_hits db dist vec results (1 - minimum_score)).Pairwise
      similarity_ge := by
  refine ⟨vector_search_ok emb dist db keyword results minimum_score vec rest hemb hres, ?_, ?_⟩
  · exact pairwise_threshold_hits mk_source_hit (1 - minimum_score) (fun _ => rfl)
      (pairwise_nearest_sources db dist vec results)
  · exact pairwise_threshold_hits mk_note_hit (1 - minimum_score) (fun _ => rfl)
      (pairwise_nearest_notes db dist vec results)

/-- Witness for C3 at a concrete database with one source chunk. -/
theorem c3_witness :
    embed_texts (const_embedder [1]) ["q"] = Except.ok ([1] :: []) ∧ 0 < 5 ∧
    vector_search (const_embedder [1]) unit_cosine_distance db_near "q" 5 true
        true (1/5) =
      Except.ok ((source_vector_hits db_near unit_cosine_distance [1] 5 (1 - 1/5) ++
        note_vector_hits db_near unit_cosine_distance [1] 5 (1 - 1/5)).take 5) :=
  ⟨rfl, by decide,
    (c3_kind_order_merge_truncate (const_embedder [1]) unit_cosine_distance db_near
      "q" 5 (1/5) [1] [] rfl (by decide)).1⟩

/-- C2 counterexample: with `minimum_score = 0.0` filtering still happens.
The single stored chunk sits at cosine distance `3/2` (similarity `-1/2`)
from the query vector; it is the nearest (indeed only) candidate of the
source kind, yet `vector_search` with `minimum_score = 0` returns nothing,
because the filter `distance ≤ 1 - 0` still discards it. -/
theorem c2_counterexample :
    vector_search (const_embedder [1]) unit_cosine_distance db_far "q" 10 true
        false 0 = Except.ok [] ∧
    nearest_sources db_far unit_cosine_distance [1] 10 =
      [⟨chunk_far, src0, 3/2⟩] := by
  have hev : nearest_sources db_far unit_cosine_distance [1] 10 =
      [⟨chunk_far, src0, 3/2⟩] := by
    norm_num [nearest_sources, source_join, db_far, chunk_far, src0,
      unit_cosine_distance, List.insertionSort, List.filterMap, List.find?]
  constructor
  · norm_num [vector_search, embed_texts, const_embedder, source_vector_hits, hev,
      List.filterMap, unit_cosine_distance, chunk_far]
  · exact hev

/-- C2 as amended: `minimum_score = 1.0` returns only hits of similarity `1`
(distance `0`, i.e. exact matches, given that cosine distances are
nonnegative); `minimum_score = 0.0` keeps, of the limit-nearest candidates of
each enabled kind, exactly those with distance at most `1` (similarity `≥ 0`)
— candidates with distance above `1` are still excluded. -/
theorem c2_amended_extreme_scores (emb : Embedder)
    (dist : List ℚ → List ℚ → ℚ) (db : Database) (keyword : String)
    (results : Nat) (vec : List ℚ) (rest : List (List ℚ))
    (hemb : embed_texts emb [keyword] = Except.ok (vec :: rest))
    (hres : 0 < results)
    (hd : ∀ u v, 0 ≤ dist u v) :
    (∀ found, vector_search emb dist db keyword results true true 1 =
        Except.ok found → ∀ h ∈ found, h.similarity = some 1) ∧
    (∀ t ∈ nearest_sources db dist vec results,
        (mk_source_hit t ∈ source_vector_hits db dist vec results (1 - 0) ↔
          t.distance ≤ 1)) ∧
    (∀ t ∈ nearest_notes db dist vec results,
        (mk_note_hit t ∈ note_vector_hits db dist vec results (1 - 0) ↔
          t.distance ≤ 1)) := by
  refine ⟨?_, ?_, ?_⟩
  · intro found hfound h hh
    have heq : found = (source_vector_hits db dist vec results (1 - 1) ++
        note_vector_hits db dist vec results (1 - 1)).take results := by
      have h1 := vector_search_ok emb dist db keyword results 1 vec rest hemb hres
      rw [hfound] at h1
      exact Except.ok.inj h1
    subst heq
    have hh' := List.mem_append.mp (List.mem_of_mem_take hh)
    rcases hh' with hsrc | hnote
    · rcases mem_threshold_hits_elim hsrc with ⟨t, ht, he, hdist⟩
      have h0 : t.distance = 0 :=
        le_antisymm (by linarith) (nearest_sources_distance_nonneg hd t ht)
      rw [he]
      show some (1 - t.distance) = some 1
      rw [h0, sub_zero]
    · rcases mem_threshold_hits_elim hnote with ⟨t, ht, he, hdist⟩
      have h0 : t.distance = 0 :=
        le_antisymm (by linarith) (nearest_notes_distance_nonneg hd t ht)
      rw [he]
      show some (1 - t.distance) = some 1
      rw [h0, sub_zero]
  · intro t ht
    rw [source_vector_hits,
      mem_threshold_hits (nearest_sources db dist vec results) mk_source_hit
        (1 - 0) (fun _ => rfl) ht]
    norm_num
  · intro t ht
    rw [note_vector_hits,
      mem_threshold_hits (nearest_notes db dist vec results) mk_note_hit
        (1 - 0) (fun _ => rfl) ht]
    norm_num

/-- Witness for the amended C2 with a zero-distance collaborator. -/
theorem c2_amended_witness :
    (∀ u v, 0 ≤ zero_distance u v) ∧
    (∀ t ∈ nearest_sources db_near zero_distance [1] 5,
        (mk_source_hit t ∈ source_vector_hits db_near zero_distance [1] 5 (1 - 0) ↔
          t.distance ≤ 1)) :=
  ⟨fun _ _ => le_refl 0,
    (c2_amended_extreme_scores (const_embedder [1]) zero_distance db_near "q" 5 [1]
      [] rfl (by decide) (fun _ _ => le_refl 0)).2.1⟩

/-- C4 counterexample: no persisted chunk carries an `order_index` — neither
chunk table has such a column at all, so the claimed invariant cannot hold of
any chunk row. -/
theorem c4_counterexample :
    "order_index" ∉ source_chunks_columns ∧ "order_index" ∉ note_chunks_columns := by
  decide

/-- C4 as amended: chunk rows carry no `order_index` column; instead they are
appended to the chunk table in the chunker's emitted order — the batch
written by `embed_source` lists, position by position, exactly the chunks of
`split_text` in original text order, each linked to the parent id. -/
theorem c4_amended_order_by_position (emb : Embedder) (db : Database)
    (s : Source) (sz : Nat) (vectors : List (List ℚ))
    (hemb : embed_texts emb (split_text (source_text s) sz) = Except.ok vectors)
    (hlen : (split_text (source_text s) sz).length ≤ vectors.length)
    (hs : source_text s ≠ "") :
    ∃ db' s' added,
      embed_source emb db s sz = Except.ok (db', s', added.length) ∧
      db'.source_chunks = db.source_chunks ++ added ∧
      added.map SourceChunk.content = split_text (source_text s) sz ∧
      (∀ c ∈ added, c.source_id = s.id) :=
  ⟨_, _, source_chunk_rows s.id (split_text (source_text s) sz) vectors,
    embed_source_eq_ok emb db s sz vectors hemb hlen hs, rfl,
    source_chunk_rows_contents s.id _ vectors hlen,
    source_chunk_rows_ids s.id _ vectors⟩

/-- Witness for the amended C4: embedding the six-character source at chunk
size 2 appends the three chunks `ab`, `cd`, `ef` in text order. -/
theorem c4_witness :
    embed_texts (const_embedder [1]) (split_text (source_text src_text6) 2) =
      Except.ok [[1], [1], [1]] ∧
    source_text src_text6 ≠ "" ∧
    ∃ db' s' added,
      embed_source (const_embedder [1]) db_text6 src_text6 2 =
        Except.ok (db', s', added.length) ∧
      db'.source_chunks = db_text6.source_chunks ++ added ∧
      added.map SourceChunk.content = split_text (source_text src_text6) 2 ∧
      (∀ c ∈ added, c.source_id = src_text6.id) :=
  ⟨rfl, by decide,
    c4_amended_order_by_position (const_embedder [1]) db_text6 src_text6 2
      [[1], [1], [1]] rfl (by decide) (by decide)⟩

/-- C5 counterexample: only sources carry an embedded-chunk counter.  The
`notes` table has no `embedded_chunks` column, and a concrete `embed_note`
run writes its chunk row while leaving the notes table — hence any would-be
counter — completely unchanged. -/
theorem c5_counterexample :
    ("embedded_chunks" ∈ sources_columns ∧ "embedded_chunks" ∉ notes_columns) ∧
    embed_note (const_embedder [1]) db_note_xy note_xy 800 =
      Except.ok ({ db_note_xy with note_chunks := [⟨3, "xy", [1]⟩] }, 1) := by
  constructor
  · decide
  · rfl

/-- C5 as amended: chunk insertion is append-only, and for *source* parents
the `embedded_chunks` counter is incremented by the number of chunks written;
embedding the same source twice with no intervening delete doubles both the
counter increment and the stored chunk count (note parents carry no counter,
see the counterexample). -/
theorem c5_amended_append_only_double (emb : Embedder) (db : Database)
    (s : Source) (sz : Nat) (vectors : List (List ℚ))
    (hemb : embed_texts emb (split_text (source_text s) sz) = Except.ok vectors)
    (hlen : (split_text (source_text s) sz).length ≤ vectors.length)
    (hs : source_text s ≠ "") :
    ∃ db1 s1 db2 s2,
      embed_source emb db s sz =
        Except.ok (db1, s1, (split_text (source_text s) sz).length) ∧
      embed_source emb db1 s1 sz =
        Except.ok (db2, s2, (split_text (source_text s) sz).length) ∧
      s1.embedded_chunks =
        s.embedded_chunks + (split_text (source_text s) sz).length ∧
      s2.embedded_chunks =
        s.embedded_chunks + 2 * (split_text (source_text s) sz).length ∧
      count_source_chunks db2 s.id =
        count_source_chunks db s.id + 2 * (split_text (source_text s) sz).length ∧
      (∀ c ∈ db.source_chunks, c ∈ db2.source_chunks) := by
  have hrows_len := source_chunk_rows_length s.id (split_text (source_text s) sz)
    vectors hlen
  have h1 := embed_source_eq_ok emb db s sz vectors hemb hlen hs
  rw [hrows_len] at h1
  have hst : source_text { s with embedded_chunks :=
      s.embedded_chunks + (split_text (source_text s) sz).length } = source_text s :=
    rfl
  have h2 := embed_source_eq_ok emb
      ({ db with
         source_chunks := db.source_chunks ++
           source_chunk_rows s.id (split_text (source_text s) sz) vectors,
         sources := db.sources.map fun r => if r.id == s.id then
           { s with embedded_chunks :=
             s.embedded_chunks + (split_text (source_text s) sz).length } else r })
      ({ s with embedded_chunks :=
          s.embedded_chunks + (split_text (source_text s) sz).length })
      sz vectors (by rw [hst]; exact hemb) (by rw [hst]; exact hlen)
      (by rw [hst]; exact hs)
  rw [hst] at h2
  dsimp only at h2
  rw [hrows_len] at h2
  refine ⟨_, _, _, _, h1, h2, rfl, ?_, ?_, ?_⟩
  · show s.embedded_chunks + (split_text (source_text s) sz).length +
      (split_text (source_text s) sz).length =
        s.embedded_chunks + 2 * (split_text (source_text s) sz).length
    omega
  · have hfil : (source_chunk_rows s.id (split_text (source_text s) sz)
        vectors).filter (fun c => c.source_id == s.id) =
        source_chunk_rows s.id (split_text (source_text s) sz) vectors :=
      List.filter_eq_self.mpr fun c hc => by
        simp [source_chunk_rows_ids s.id (split_text (source_text s) sz) vectors c hc]
    dsimp only [count_source_chunks]
    simp only [List.filter_append, List.length_append, hfil, hrows_len]
    omega
  · intro c hc
    exact List.mem_append_left _ (List.mem_append_left _ hc)

/-- Witness for the amended C5: embedding `src_text6` twice accumulates six
chunk rows and a counter of six. -/
theorem c5_witness :
    embed_texts (const_embedder [1]) (split_text (source_text src_text6) 2) =
      Except.ok [[1], [1], [1]] ∧
    ∃ db1 s1 db2 s2,
      embed_source (const_embedder [1]) db_text6 src_text6 2 =
        Except.ok (db1, s1, (split_text (source_text src_text6) 2).length) ∧
      embed_source (const_embedder [1]) db1 s1 2 =
        Except.ok (db2, s2, (split_text (source_text src_text6) 2).length) ∧
      s1.embedded_chunks =
        src_text6.embedded_chunks + (split_text (source_text src_text6) 2).length ∧
      s2.embedded_chunks =
        src_text6.embedded_chunks + 2 * (split_text (source_text src_text6) 2).length ∧
      count_source_chunks db2 src_text6.id =
        count_source_chunks db_text6 src_text6.id +
          2 * (split_text (source_text src_text6) 2).length ∧
      (∀ c ∈ db_text6.source_chunks, c ∈ db2.source_chunks) :=
  ⟨rfl, c5_amended_append_only_double (const_embedder [1]) db_text6 src_text6 2
    [[1], [1], [1]] rfl (by decide) (by decide)⟩

/-- C7 counterexample: an empty query does not fail with a validation error —
the search route executes it in both modes.  In text mode the pattern becomes
`%%` and the Apple source is returned; in vector mode the empty string is
embedded and searched (here over an empty chunk table). -/
theorem c7_counterexample :
    search_knowledge_base (const_embedder [1]) unit_cosine_distance db_apple
        ⟨"", "text", 50, true, true, 1/5⟩ =
      Except.ok ⟨[mk_text_source_hit src_apple], 1, "text"⟩ ∧
    search_knowledge_base (const_embedder [1]) unit_cosine_distance db_apple
        ⟨"", "vector", 50, true, true, 1/5⟩ =
      Except.ok ⟨[], 0, "vector"⟩ := by
  constructor
  · rfl
  · rfl

/-- C7 as amended: the empty-keyword validation lives only in the legacy
domain-layer helpers (`domain/notebook.py`), which the API route never calls;
the route itself executes an empty query — in text mode it degenerates to a
match-everything-non-null query over both tables. -/
theorem c7_amended_validation_only_in_domain_layer :
    (∀ body, domain_text_search body "" =
      Except.error DomainSearchError.invalidInput) ∧
    (∀ body, domain_vector_search body "" =
      Except.error DomainSearchError.invalidInput) ∧
    (∀ (db : Database) (limit : Nat),
      search_text db "" limit true true =
        ((db.sources.filter fun s =>
            s.title.isSome || s.full_text.isSome || s.content.isSome).take
          limit).map mk_text_source_hit ++
        ((db.notes.filter fun n => n.title.isSome || n.content.isSome).take
          limit).map mk_text_note_hit) := by
  refine ⟨fun body => rfl, fun body => rfl, fun db limit => ?_⟩
  unfold search_text
  simp only [ilike_empty_pattern]
  simp

/-- C8 counterexample: lexical matching is not a substring match.  The query
`a%b` is not a substring of the title `axxb` (case-insensitively), yet the
route returns that source, because the query is embedded into the `ILIKE`
pattern and its `%` acts as a wildcard. -/
theorem c8_counterexample :
    search_text db_axxb "a%b" 50 true true = [mk_text_source_hit src_axxb] ∧
    is_substring (lower_chars "a%b") (lower_chars "axxb") = false := by
  constructor
  · rfl
  · rfl

/-- C8 as amended: lexical matching is case-insensitive SQL `LIKE` matching
of the pattern `%query.lower()%` (so `%`, `_` and `\` in the query act as
pattern metacharacters); for queries free of those metacharacters it is
exactly a case-insensitive substring match against the entity fields, every
match scores a fixed `1.0`, each kind is truncated to the limit, and the kind
lists are concatenated sources-first. -/
theorem c8_amended_like_matching (q : String) (db : Database) (limit : Nat)
    (ss sn : Bool)
    (hq : ∀ c ∈ lower_chars q, c ≠ '%' ∧ c ≠ '_' ∧ c ≠ '\\') :
    search_text db q limit ss sn =
      (if ss then ((db.sources.filter fun s =>
          substr_opt q s.title || substr_opt q s.full_text ||
          substr_opt q s.content).take limit).map mk_text_source_hit
       else []) ++
      (if sn then ((db.notes.filter fun n =>
          substr_opt q n.title || substr_opt q n.content).take limit).map
            mk_text_note_hit
       else []) := by
  unfold search_text
  simp only [ilike_eq_substr_opt q hq]

/-- Witness for the amended C8: the metacharacter-free query `apple` against
the Apple database. -/
theorem c8_witness :
    (∀ c ∈ lower_chars "apple", c ≠ '%' ∧ c ≠ '_' ∧ c ≠ '\\') ∧
    search_text db_apple "apple" 50 true true =
      (if true then ((db_apple.sources.filter fun s =>
          substr_opt "apple" s.title || substr_opt "apple" s.full_text ||
          substr_opt "apple" s.content).take 50).map mk_text_source_hit
       else []) ++
      (if true then ((db_apple.notes.filter fun n =>
          substr_opt "apple" n.title || substr_opt "apple" n.content).take
            50).map mk_text_note_hit
       else []) :=
  ⟨by decide, c8_amended_like_matching "apple" db_apple 50 true true (by decide)⟩

end OpenNotebook
